import Mathlib

/-!
Shallow embedding of the two Azure ML tutorial notebooks of this repository:
`automl/00.configuration.ipynb` (workspace configuration) and the remote-DSVM
AutoML experiment notebook (`src/unnamed/part_000`).  Python dictionaries are
modelled as association lists, Python scalar values as an inductive `PyValue`,
fallible calls as `Except`/`Option`, and the local file system touched by the
notebooks as explicit state.
-/

namespace AML

/-! ### Python values

Scalar Python values appearing in the notebooks (ints, strings, booleans,
floats) together with one non-scalar shape (a list of floats, as returned for
some logged metrics), so that scalar-ness is a real property of a value. -/

inductive PyValue where
  | float (q : ℚ)
  | int (i : ℤ)
  | str (s : String)
  | bool (b : Bool)
  | floatList (l : List ℚ)
deriving DecidableEq, Repr

/-- A value is scalar when it is not a list. -/
def PyValue.isScalar : PyValue → Bool
  | .floatList _ => false
  | _ => true

/-- Test used by the metrics comprehension `isinstance(v, float)`. -/
def PyValue.isFloat : PyValue → Bool
  | .float _ => true
  | _ => false

/-! ### Notebook constants (configuration notebook, cell-11) -/

def subscription_id : String := "<subscription_id>"
def resource_group : String := "myrg"
def workspace_name : String := "myws"
def workspace_region : String := "eastus2"

/-! ### Workspace references

The workspace object the configuration notebook constructs in order to call
`write_config` (cell-15) is built from exactly three strings:
`Workspace(workspace_name = ..., subscription_id = ..., resource_group = ...)`.
No region is passed to it. -/

structure Workspace where
  workspace_name : String
  subscription_id : String
  resource_group : String
deriving DecidableEq, Repr

/-- Modelled from the spec: the SDK body of `Workspace.write_config` is not in
this repository.  The notebook's own comment states it persists "the
subscription id, resource group name, and workspace name in
aml_config/config.json", and the workspace object it is called on carries only
those three strings, so the written configuration record holds exactly them. -/
structure ConfigFile where
  subscription_id : String
  resource_group : String
  workspace_name : String
deriving DecidableEq, Repr

/-- The configuration record `ws.write_config()` persists. -/
def Workspace.write_config (ws : Workspace) : ConfigFile :=
  { subscription_id := ws.subscription_id
    resource_group := ws.resource_group
    workspace_name := ws.workspace_name }

/-- The config file as a keyed field list (the shape of `config.json`). -/
def ConfigFile.fields (c : ConfigFile) : List (String × String) :=
  [("subscription_id", c.subscription_id),
   ("resource_group", c.resource_group),
   ("workspace_name", c.workspace_name)]

/-- Modelled from the spec: the SDK body of `Workspace.from_config` is not in
this repository.  It reads the persisted configuration file back into a
workspace reference ("load the workspace from this config file"). -/
def Workspace.from_config (c : ConfigFile) : Workspace :=
  { workspace_name := c.workspace_name
    subscription_id := c.subscription_id
    resource_group := c.resource_group }

/-- The workspace value on which the configuration step calls
`write_config` (cell-15 of the configuration notebook). -/
def configuration_step_ws : Workspace :=
  { workspace_name := workspace_name
    subscription_id := subscription_id
    resource_group := resource_group }

/-- The configuration file written by a run of the configuration step. -/
def configuration_step_config : ConfigFile :=
  configuration_step_ws.write_config

/-! ### Overwriting semantics of the configuration file (claim C7)

Modelled from the spec: "at most one active descriptor per working directory;
overwritten wholesale on reconfiguration".  The file state of a working
directory is `Option ConfigFile`; a `write_config` call replaces it. -/

def writeConfigStep (_file : Option ConfigFile) (ws : Workspace) : Option ConfigFile :=
  some ws.write_config

/-- The file state after a sequence of `write_config` calls. -/
def writeConfigSeq (init : Option ConfigFile) (calls : List Workspace) : Option ConfigFile :=
  calls.foldl writeConfigStep init

/-! ### AutoML settings (experiment notebook)

The literal `automl_settings` dictionary of the experiment notebook. -/

def automl_settings : List (String × PyValue) :=
  [("max_time_sec", .int 3600),
   ("iterations", .int 10),
   ("n_cross_validations", .int 5),
   ("primary_metric", .str "AUC_weighted"),
   ("preprocess", .bool true),
   ("max_cores_per_iteration", .int 2)]

def project_folder : String := "./sample_projects/automl-remote-dsvm-blobstore"

def dsvm_name : String := "mydsvm1"

/-- The `AutoMLConfig` object built in the experiment notebook: the fixed
positional arguments plus the settings mapping splatted as kwargs. -/
structure AutoMLConfig where
  task : String
  path : String
  compute_target : String
  data_script : String
  settings : List (String × PyValue)
deriving DecidableEq, Repr

def automl_config : AutoMLConfig :=
  { task := "classification"
    path := project_folder
    compute_target := dsvm_name
    data_script := project_folder ++ "/get_data.py"
    settings := automl_settings }

/-! ### Workspace provisioning (claim C6)

Modelled from the spec: the SDK body of `Workspace.create` is not in this
repository.  The configuration notebook documents that the call "will fail
when: 1. The workspace already exists 2. You do not have permission to create
a workspace in the resource group 3. You are not a subscription owner or
contributor and no Azure ML workspaces have ever been created in this
subscription"; otherwise it provisions and returns the workspace. -/

inductive CreateFailure where
  | workspaceAlreadyExists
  | insufficientPermission
  | notOwnerAndNoWorkspaceEverCreated
deriving DecidableEq, Repr

/-- The remote cloud state `Workspace.create` acts against. -/
structure CloudEnv where
  existingWorkspaces : List (String × String × String)
  canCreateInResourceGroup : Bool
  isOwnerOrContributor : Bool
  workspaceEverCreated : Bool
deriving DecidableEq, Repr

/-- The provisioning call: four string inputs against the remote state, a
workspace reference or a failure as result. -/
def Workspace.create (name sub rg _location : String) (env : CloudEnv) :
    Except CreateFailure Workspace :=
  if (sub, rg, name) ∈ env.existingWorkspaces then
    .error .workspaceAlreadyExists
  else if ¬ env.canCreateInResourceGroup then
    .error .insufficientPermission
  else if ¬ env.isOwnerOrContributor ∧ ¬ env.workspaceEverCreated then
    .error .notOwnerAndNoWorkspaceEverCreated
  else
    .ok { workspace_name := name, subscription_id := sub, resource_group := rg }

/-! ### Sample-projects folder creation (claim C10)

The local file system is the list of existing directory paths. -/

abbrev FileSystem := List String

def os_path_isdir (fs : FileSystem) (p : String) : Bool := p ∈ fs

/-- `os.mkdir` raises `FileExistsError` when the directory already exists. -/
def os_mkdir (fs : FileSystem) (p : String) : Except String FileSystem :=
  if p ∈ fs then .error "FileExistsError" else .ok (p :: fs)

def sample_projects_folder : String := "./sample_projects"

/-- The guarded directory creation of cell-19 of the configuration notebook:
`if not os.path.isdir(sample_projects_folder): os.mkdir(sample_projects_folder)`. -/
def create_sample_projects_step (fs : FileSystem) : Except String FileSystem :=
  if ¬ os_path_isdir fs sample_projects_folder then
    os_mkdir fs sample_projects_folder
  else
    .ok fs

/-! ### The generated `get_data` function (claim C4)

The data-loading script written by the experiment notebook.  A fetched TSV
data frame is a list of rows, each row an association of column names to cell
text; the dataset's labels are the cells of its `Label` column. -/

abbrev Row := List (String × String)

abbrev Frame := List Row

/-- The `Label` column of a frame, as `df["Label"].values` reads it; `none`
when some row has no `Label` cell (a `KeyError` in the script). -/
def labelColumn (df : Frame) : Option (List String) :=
  df.mapM fun row => row.lookup "Label"

/-- `df.drop(["Label"], axis=1)`. -/
def dropLabel (df : Frame) : Frame :=
  df.map fun row => row.filter fun p => p.1 != "Label"

def insertSorted (x : String) : List String → List String
  | [] => [x]
  | y :: ys => if x ≤ y then x :: y :: ys else y :: insertSorted x ys

def sortStrings (xs : List String) : List String :=
  xs.foldr insertSorted []

/-- `LabelEncoder.fit`: the classes are the sorted distinct label values. -/
def fitClasses (labels : List String) : List String :=
  sortStrings labels.dedup

/-- `LabelEncoder.transform`: each label maps to its index among the classes. -/
def labelTransform (labels : List String) : List ℕ :=
  labels.map fun l => (fitClasses labels).indexOf l

/-- The shape of `sklearn.model_selection.train_test_split` on a frame and a
label vector: train frame, test frame, train labels, test labels. -/
abbrev SplitFn := Frame → List ℕ → Frame × Frame × List ℕ × List ℕ

/-- The generated `get_data()` function: fit a label encoder on the `Label`
column, encode it as `y`, drop the column from the frame, compute a 90/10
train/test split whose pieces are bound but never used, and return the
dictionary `{ "X" : df, "y" : y }` built from the full frame and full labels. -/
def get_data (train_test_split : SplitFn) (df0 : Frame) : Option (Frame × List ℕ) :=
  match labelColumn df0 with
  | none => none
  | some labelValues =>
    let le_classes := fitClasses labelValues
    let y := labelValues.map fun l => le_classes.indexOf l
    let df := dropLabel df0
    match train_test_split df y with
    | (_df_train, _, _y_train, _) => some (df, y)

/-- A split that keeps every row in the train part. -/
def splitKeepAll : SplitFn := fun df y => (df, [], y, [])

/-- A split that moves every row to the test part. -/
def splitDropAll : SplitFn := fun df y => ([], df, [], y)

/-- A two-row dataset in the shape of the fetched TSV. -/
def exampleFrame : Frame :=
  [[("Label", "b"), ("Event_Text", "hello")],
   [("Label", "a"), ("Event_Text", "bye")]]

/-! ### The per-iteration metrics table (claim C9) -/

/-- A child run as the experiment notebook reads it: its properties (string
valued, among them `iteration`) and its logged metrics. -/
structure ChildRun where
  properties : List (String × String)
  metrics : List (String × PyValue)
deriving DecidableEq, Repr

def digitVal (c : Char) : Option ℕ :=
  if c = '0' then some 0 else if c = '1' then some 1
  else if c = '2' then some 2 else if c = '3' then some 3
  else if c = '4' then some 4 else if c = '5' then some 5
  else if c = '6' then some 6 else if c = '7' then some 7
  else if c = '8' then some 8 else if c = '9' then some 9
  else none

def parseNatFrom (acc : ℕ) : List Char → Option ℕ
  | [] => some acc
  | c :: cs =>
    match digitVal c with
    | none => none
    | some d => parseNatFrom (acc * 10 + d) cs

/-- Python's `int()` on a decimal string: an optional sign followed by at
least one digit; anything else raises (modelled as `none`). -/
def str_to_int (s : String) : Option ℤ :=
  match s.data with
  | [] => none
  | '-' :: cs =>
    if cs.isEmpty then none
    else (parseNatFrom 0 cs).map fun n => -(n : ℤ)
  | cs => (parseNatFrom 0 cs).map fun n => (n : ℤ)

/-- `int(properties['iteration'])`: `none` models the raise on a missing or
non-numeric property. -/
def ChildRun.iterationKey (run : ChildRun) : Option ℤ :=
  (run.properties.lookup "iteration").bind str_to_int

/-- The comprehension `{k: v for k, v in run.get_metrics().items() if
isinstance(v, float)}`. -/
def ChildRun.floatMetrics (run : ChildRun) : List (String × PyValue) :=
  run.metrics.filter fun p => p.2.isFloat

/-- The `metricslist` dictionary keyed by iteration number. -/
abbrev MetricsDict := ℤ → Option (List (String × PyValue))

def emptyMetricsDict : MetricsDict := fun _ => none

def dictInsert (d : MetricsDict) (k : ℤ) (v : List (String × PyValue)) : MetricsDict :=
  fun k2 => if k2 = k then some v else d k2

/-- The notebook's loop over the child runs, filling `metricslist`. -/
def buildMetricsList : List ChildRun → MetricsDict → Option MetricsDict
  | [], d => some d
  | run :: rest, d =>
    match run.iterationKey with
    | none => none
    | some k => buildMetricsList rest (dictInsert d k run.floatMetrics)

/-- `metricslist` as built from all child runs, starting from `{}`. -/
def metricslist (children : List ChildRun) : Option MetricsDict :=
  buildMetricsList children emptyMetricsDict

theorem buildMetricsList_mem : ∀ (children : List ChildRun) (d table : MetricsDict),
    buildMetricsList children d = some table →
    ∀ (k : ℤ) (ms : List (String × PyValue)), table k = some ms →
    (∃ run ∈ children, run.iterationKey = some k ∧ ms = run.floatMetrics) ∨
      d k = some ms := by
  intro children
  induction children with
  | nil =>
    intro d table h k ms hk
    simp only [buildMetricsList, Option.some.injEq] at h
    subst h
    exact .inr hk
  | cons run rest ih =>
    intro d table h k ms hk
    unfold buildMetricsList at h
    cases hkey : run.iterationKey with
    | none => rw [hkey] at h; exact absurd h (by simp)
    | some k0 =>
      rw [hkey] at h
      rcases ih (dictInsert d k0 run.floatMetrics) table h k ms hk with
        ⟨r, hr, hik, hms⟩ | hd
      · exact .inl ⟨r, List.mem_cons_of_mem _ hr, hik, hms⟩
      · unfold dictInsert at hd
        by_cases hkk : k = k0
        · subst hkk
          rw [if_pos rfl] at hd
          exact .inl ⟨run, List.mem_cons_self _ _, hkey,
            (Option.some.injEq _ _ ▸ hd).symm⟩
        · rw [if_neg hkk] at hd
          exact .inr hd

/-! ### The notebooks' remote-SDK call sequence (claims C5 and C8)

The two notebooks are straight-line scripts; each remote SDK call is issued
in order with no `try`/`except` around any of them. -/

inductive SDKCall where
  | createWorkspace
  | getDetails
  | writeConfig
  | fromConfig
  | attachCompute
  | submitRun
  | showRunDetails
  | getChildren
  | getRunMetrics
  | cancelRun
  | getOutput
  | registerModel
deriving DecidableEq, Repr

/-- The remote SDK calls of the two notebooks in program order. -/
def notebookCalls : List SDKCall :=
  [.createWorkspace, .getDetails, .writeConfig, .fromConfig, .attachCompute,
   .submitRun, .showRunDetails, .getChildren, .getRunMetrics, .cancelRun,
   .getOutput, .registerModel]

/-- Straight-line execution of a list of calls: each call is issued in turn
and any raised error aborts the rest of the script unchanged — there is no
handler anywhere. -/
def runSequence (impl : SDKCall → Except String Unit) : List SDKCall → Except String Unit
  | [] => .ok ()
  | c :: rest =>
    match impl c with
    | .error e => .error e
    | .ok _ => runSequence impl rest

/-- Execution of the notebooks against an SDK implementation. -/
def runNotebooks (impl : SDKCall → Except String Unit) : Except String Unit :=
  runSequence impl notebookCalls

/-! ### Client state after submission (claim C8)

The notebook variables live after `experiment.submit`, and the remote data the
later cells pull down. -/

structure RemoteResponses where
  rundata : List (ℤ × List (String × PyValue))
  best_run : String
  fitted_model : String
  model_id : String
deriving DecidableEq, Repr

structure ClientState where
  automl_settings : List (String × PyValue)
  automl_config : AutoMLConfig
  widget_shown : Bool
  rundata : Option (List (ℤ × List (String × PyValue)))
  cancel_requested : Bool
  best_output : Option (String × String)
  registered_model_id : Option String
deriving DecidableEq, Repr

/-- `RunDetails(remote_run).show()`. -/
def show_run_details (s : ClientState) : ClientState :=
  { s with widget_shown := true }

/-- The child-run metrics cell, binding `rundata`. -/
def retrieve_child_metrics (r : RemoteResponses) (s : ClientState) : ClientState :=
  { s with rundata := some r.rundata }

/-- `remote_run.cancel()`. -/
def cancel_run (s : ClientState) : ClientState :=
  { s with cancel_requested := true }

/-- `best_run, fitted_model = remote_run.get_output()`. -/
def retrieve_best_output (r : RemoteResponses) (s : ClientState) : ClientState :=
  { s with best_output := some (r.best_run, r.fitted_model) }

/-- `remote_run.register_model(...)` followed by reading `model_id`. -/
def register_model (r : RemoteResponses) (s : ClientState) : ClientState :=
  { s with registered_model_id := some r.model_id }

/-- The client-side operations the notebook performs after
`experiment.submit`, in order. -/
def postSubmitOps (r : RemoteResponses) : List (ClientState → ClientState) :=
  [show_run_details, retrieve_child_metrics r, cancel_run,
   retrieve_best_output r, register_model r]

theorem runSequence_error (impl : SDKCall → Except String Unit)
    (pre : List SDKCall) (c : SDKCall) (post : List SDKCall) (e : String)
    (hpre : ∀ c' ∈ pre, impl c' = .ok ())
    (herr : impl c = .error e) :
    runSequence impl (pre ++ c :: post) = .error e := by
  induction pre with
  | nil => simp [runSequence, herr]
  | cons d pre ih =>
    have hd : impl d = .ok () := hpre d (by simp)
    simp only [List.cons_append, runSequence, hd]
    exact ih fun c' hc' => hpre c' (by simp [hc'])

end AML

namespace AML

/-! ## Theorems for the configuration claims -/

/-- C1: writing the workspace configuration file and then loading it back
round-trips the workspace identity: `Workspace.from_config` applied to the
record written by `write_config` yields the same subscription id, resource
group name, and workspace name. -/
theorem config_roundtrip (ws : Workspace) :
    (Workspace.from_config ws.write_config).subscription_id = ws.subscription_id ∧
    (Workspace.from_config ws.write_config).resource_group = ws.resource_group ∧
    (Workspace.from_config ws.write_config).workspace_name = ws.workspace_name := by
  refine ⟨rfl, rfl, rfl⟩

/-- C2 counterexample: the descriptor written by the configuration step does
not contain four fields and carries no region: the file written by the
notebook's `write_config` call has exactly the three keys
`subscription_id`, `resource_group`, `workspace_name`. -/
theorem config_fields_counterexample :
    configuration_step_config.fields.length = 3 ∧
    "region" ∉ configuration_step_config.fields.map Prod.fst ∧
    workspace_region ∉ configuration_step_config.fields.map Prod.snd := by
  refine ⟨rfl, by decide, by decide⟩

/-- C2 (amended): the workspace descriptor persisted to the local
configuration file contains exactly three fields — the subscription
identifier, the resource group name, and the workspace name — written
whenever the configuration step runs; the region is not persisted. -/
theorem config_fields_amended (ws : Workspace) :
    ws.write_config.fields =
      [("subscription_id", ws.subscription_id),
       ("resource_group", ws.resource_group),
       ("workspace_name", ws.workspace_name)] ∧
    "region" ∉ ws.write_config.fields.map Prod.fst := by
  refine ⟨rfl, by simp [ConfigFile.fields, Workspace.write_config]⟩

/-- C7: every reconfiguration overwrites the configuration file wholesale, so
after any sequence of `write_config` calls ending in a call on `ws`, the file
holds exactly the record of that last call, whatever came before. -/
theorem config_overwrite_wholesale (init : Option ConfigFile)
    (calls : List Workspace) (ws : Workspace) :
    writeConfigSeq init (calls ++ [ws]) = some ws.write_config := by
  simp [writeConfigSeq, List.foldl_append, writeConfigStep]

/-- C3 counterexample: the `automl_settings` mapping passed at submission time
has exactly the six option names below and contains no concurrency limit: the
`concurrent_iterations` option (the SDK's concurrency limit, documented in the
notebook's own options table) is absent. -/
theorem automl_settings_counterexample :
    automl_settings.map Prod.fst =
      ["max_time_sec", "iterations", "n_cross_validations",
       "primary_metric", "preprocess", "max_cores_per_iteration"] ∧
    "concurrent_iterations" ∉ automl_settings.map Prod.fst := by
  refine ⟨rfl, by decide⟩

/-- C3 (amended): the AutoML settings object passed at submission time is a
flat mapping of option names to scalar values that includes a time budget in
seconds, an iteration count, a cross-validation fold count, a primary metric
name, a preprocessing flag, and a per-iteration core limit; it sets no
concurrency limit. -/
theorem automl_settings_amended :
    automl_settings.all (fun p => p.2.isScalar) = true ∧
    automl_settings.lookup "max_time_sec" = some (.int 3600) ∧
    automl_settings.lookup "iterations" = some (.int 10) ∧
    automl_settings.lookup "n_cross_validations" = some (.int 5) ∧
    automl_settings.lookup "primary_metric" = some (.str "AUC_weighted") ∧
    automl_settings.lookup "preprocess" = some (.bool true) ∧
    automl_settings.lookup "max_cores_per_iteration" = some (.int 2) ∧
    automl_settings.lookup "concurrent_iterations" = none ∧
    automl_config.settings = automl_settings := by
  refine ⟨rfl, rfl, ?_, ?_, ?_, ?_, ?_, ?_, rfl⟩ <;> decide

/-- C6: `Workspace.create` takes four string inputs and either returns a
workspace reference or fails; it fails with `workspaceAlreadyExists` when the
workspace already exists and with `insufficientPermission` when the caller
lacks permission to create it in the resource group. -/
theorem workspace_create_spec (name sub rg loc : String) (env : CloudEnv) :
    ((sub, rg, name) ∈ env.existingWorkspaces →
        Workspace.create name sub rg loc env = .error .workspaceAlreadyExists) ∧
    ((sub, rg, name) ∉ env.existingWorkspaces → env.canCreateInResourceGroup = false →
        Workspace.create name sub rg loc env = .error .insufficientPermission) ∧
    ((∃ ws, Workspace.create name sub rg loc env = .ok ws) ∨
        ∃ f, Workspace.create name sub rg loc env = .error f) := by
  refine ⟨fun h => by simp [Workspace.create, h],
          fun h1 h2 => by simp [Workspace.create, h1, h2], ?_⟩
  cases h : Workspace.create name sub rg loc env with
  | ok ws => exact .inl ⟨ws, rfl⟩
  | error f => exact .inr ⟨f, rfl⟩

/-- A cloud state in which the notebook's workspace already exists. -/
def envWithExistingWorkspace : CloudEnv :=
  { existingWorkspaces := [(subscription_id, resource_group, workspace_name)]
    canCreateInResourceGroup := true
    isOwnerOrContributor := true
    workspaceEverCreated := true }

/-- Witness for C6 at the notebook's concrete arguments: against a cloud state
already holding the workspace, the creation call fails as stated. -/
theorem workspace_create_spec_witness :
    Workspace.create workspace_name subscription_id resource_group
        workspace_region envWithExistingWorkspace = .error .workspaceAlreadyExists :=
  (workspace_create_spec workspace_name subscription_id resource_group
      workspace_region envWithExistingWorkspace).1 (by decide)

/-- C5: no failure raised by any of the notebooks' remote SDK calls is caught,
classified, or retried: whenever the calls before some position all succeed
and the call at that position raises an error, the whole notebook run ends
with exactly that error. -/
theorem sdk_errors_propagate (impl : SDKCall → Except String Unit)
    (pre : List SDKCall) (c : SDKCall) (post : List SDKCall) (e : String)
    (hsplit : notebookCalls = pre ++ c :: post)
    (hpre : ∀ c' ∈ pre, impl c' = .ok ())
    (herr : impl c = .error e) :
    runNotebooks impl = .error e := by
  rw [runNotebooks, hsplit]
  exact runSequence_error impl pre c post e hpre herr

/-- An SDK implementation whose submission call raises a service exception
while every other call succeeds. -/
def failingSubmitImpl : SDKCall → Except String Unit := fun c =>
  if c = .submitRun then .error "ServiceException" else .ok ()

/-- Witness for C5: with a submission call that raises a service exception,
the notebook run ends with exactly that exception. -/
theorem sdk_errors_propagate_witness :
    runNotebooks failingSubmitImpl = .error "ServiceException" :=
  sdk_errors_propagate failingSubmitImpl
    [.createWorkspace, .getDetails, .writeConfig, .fromConfig, .attachCompute]
    .submitRun
    [.showRunDetails, .getChildren, .getRunMetrics, .cancelRun, .getOutput,
     .registerModel]
    "ServiceException" rfl
    (by intro c' hc'; fin_cases hc' <;> rfl) rfl

/-- C10: creating the sample-projects folder is safe to repeat: the guarded
step never raises, repeating it reaches a fixed point after one run, and when
the directory already exists the file system is left unchanged. -/
theorem sample_projects_mkdir_safe (fs : FileSystem) :
    (∃ fs2, create_sample_projects_step fs = .ok fs2 ∧
        create_sample_projects_step fs2 = .ok fs2) ∧
    (os_path_isdir fs sample_projects_folder = true →
        create_sample_projects_step fs = .ok fs) := by
  by_cases h : sample_projects_folder ∈ fs
  · have hdir : os_path_isdir fs sample_projects_folder = true := by
      simp [os_path_isdir, h]
    refine ⟨⟨fs, ?_, ?_⟩, fun _ => ?_⟩ <;>
      simp [create_sample_projects_step, hdir]
  · have hdir : os_path_isdir fs sample_projects_folder = false := by
      simp [os_path_isdir, h]
    refine ⟨⟨sample_projects_folder :: fs, ?_, ?_⟩, fun hcontra => ?_⟩
    · simp [create_sample_projects_step, hdir, os_mkdir, h]
    · simp [create_sample_projects_step, os_path_isdir]
    · rw [hdir] at hcontra
      exact absurd hcontra (by simp)

/-- Witness for C10 at a concrete file system already holding the directory:
the step succeeds and leaves it unchanged. -/
theorem sample_projects_mkdir_safe_witness :
    create_sample_projects_step [sample_projects_folder] =
      .ok [sample_projects_folder] :=
  (sample_projects_mkdir_safe [sample_projects_folder]).2 (by decide)

/-- C4: for every fetched dataset, `get_data()` returns the dictionary whose
`X` value is the full frame with the `Label` column dropped and whose `y`
value is the label-encoded full `Label` column; the train/test split it
computes is discarded and has no effect on the returned value (any two split
functions give the same result). -/
theorem get_data_full_frame (s1 s2 : SplitFn) (df0 : Frame) :
    get_data s1 df0 = get_data s2 df0 ∧
    ∀ labelValues, labelColumn df0 = some labelValues →
      get_data s1 df0 = some (dropLabel df0, labelTransform labelValues) := by
  constructor
  · unfold get_data
    cases labelColumn df0 <;> rfl
  · intro labelValues h
    simp [get_data, h, labelTransform]

/-- Witness for C4 at a concrete two-row dataset and two concrete opposite
splits: the returned value is the same and equals the dropped frame paired
with the encoded labels. -/
theorem get_data_full_frame_witness :
    get_data splitKeepAll exampleFrame = get_data splitDropAll exampleFrame ∧
    get_data splitKeepAll exampleFrame =
      some (dropLabel exampleFrame, labelTransform ["b", "a"]) :=
  ⟨(get_data_full_frame splitKeepAll splitDropAll exampleFrame).1,
   (get_data_full_frame splitKeepAll splitDropAll exampleFrame).2 ["b", "a"] rfl⟩

/-- C8: the settings mapping is passed exactly once, at submission time (the
notebook call sequence contains exactly one submission), and every client-side
operation performed after `experiment.submit` — widget polling, metrics
retrieval, cancellation, best-output retrieval, model registration — leaves
the settings mapping and the `AutoMLConfig` unchanged. -/
theorem settings_immutable_after_submit (r : RemoteResponses)
    (op : ClientState → ClientState) (hop : op ∈ postSubmitOps r)
    (s : ClientState) :
    notebookCalls.count .submitRun = 1 ∧
    (op s).automl_settings = s.automl_settings ∧
    (op s).automl_config = s.automl_config := by
  refine ⟨by decide, ?_⟩
  simp only [postSubmitOps, List.mem_cons, List.mem_singleton,
    List.not_mem_nil, or_false] at hop
  rcases hop with rfl | rfl | rfl | rfl | rfl <;> exact ⟨rfl, rfl⟩

/-- The remote data the post-submission cells pull down, at sample values. -/
def exampleRemote : RemoteResponses :=
  { rundata := [(0, [("AUC_weighted", .float (9/10))])]
    best_run := "AutoML_run_7"
    fitted_model := "Pipeline(...)"
    model_id := "AutoMLModel1" }

/-- The notebook's client state right after submission. -/
def exampleClientState : ClientState :=
  { automl_settings := automl_settings
    automl_config := automl_config
    widget_shown := false
    rundata := none
    cancel_requested := false
    best_output := none
    registered_model_id := none }

/-- Witness for C8: cancelling the concrete post-submission state leaves the
settings mapping and the config unchanged, and the call sequence holds one
submission. -/
theorem settings_immutable_after_submit_witness :
    notebookCalls.count .submitRun = 1 ∧
    (cancel_run exampleClientState).automl_settings =
      exampleClientState.automl_settings ∧
    (cancel_run exampleClientState).automl_config =
      exampleClientState.automl_config :=
  settings_immutable_after_submit exampleRemote cancel_run
    (List.mem_cons_of_mem _ (List.mem_cons_of_mem _ (List.mem_cons_self _ _)))
    exampleClientState

/-- C9: whenever the metrics-table loop completes, every entry of the
resulting table is the float-only filtered metrics of some child run whose
`iteration` property parses to that integer key, and every retained metric
value is a float. -/
theorem child_metrics_float_only (children : List ChildRun)
    (table : MetricsDict) (h : metricslist children = some table)
    (k : ℤ) (ms : List (String × PyValue)) (hk : table k = some ms) :
    (∃ run ∈ children, run.iterationKey = some k ∧ ms = run.floatMetrics) ∧
    ∀ p ∈ ms, p.2.isFloat = true := by
  rcases buildMetricsList_mem children emptyMetricsDict table h k ms hk with
    hrun | hempty
  · refine ⟨hrun, ?_⟩
    rcases hrun with ⟨run, _, _, hms⟩
    intro p hp
    rw [hms] at hp
    exact (List.mem_filter.mp hp).2
  · exact absurd hempty (by simp [emptyMetricsDict])

/-- Two child runs with mixed metric value shapes. -/
def exampleChildren : List ChildRun :=
  [{ properties := [("iteration", "0")]
     metrics := [("AUC_weighted", .float (9/10)),
                 ("pipeline_spec", .str "LogisticRegression"),
                 ("confusion_values", .floatList [1, 2])] },
   { properties := [("iteration", "1")]
     metrics := [("AUC_weighted", .float (8/10)), ("seed", .int 42)] }]

/-- The table the loop builds on `exampleChildren`. -/
def exampleTable : MetricsDict :=
  dictInsert (dictInsert emptyMetricsDict 0 [("AUC_weighted", .float (9/10))])
    1 [("AUC_weighted", .float (8/10))]

/-- Witness for C9 at the concrete child runs: the entry at key 0 comes from
the run whose iteration property is "0" and holds only float-valued metrics. -/
theorem child_metrics_float_only_witness :
    (∃ run ∈ exampleChildren, run.iterationKey = some 0 ∧
        [("AUC_weighted", PyValue.float (9/10))] = run.floatMetrics) ∧
    ∀ p ∈ [("AUC_weighted", PyValue.float (9/10))], p.2.isFloat = true :=
  child_metrics_float_only exampleChildren exampleTable (by rfl) 0
    [("AUC_weighted", PyValue.float (9/10))] (by rfl)

end AML
